import Mathlib

/-!
Verification of the Schur-numbers solver (`shurs-numbers-z3.py`).

The program encodes Schur-number queries as constraint-satisfaction problems
over an integer-indexed coloring array `A : Int → Int` and hands them to an
external solver.  We embed the asserted formula sets as propositions over such
an array, the result-handling code as executable functions of an abstract
solver outcome, and the iterate-mode driver loop body as a step function on a
search state.
-/

/-- The well-formedness constraint asserted in `ShurProblem.__init__`:
`ForAll i, (i ≥ 0 ∧ i < total_numbers) → (A[i] ≥ 1 ∧ A[i] ≤ total_colors)`. -/
def wellformedness (total_colors total_numbers : Int) (coloring : Int → Int) : Prop :=
  ∀ i : Int, (0 ≤ i ∧ i < total_numbers) → (1 ≤ coloring i ∧ coloring i ≤ total_colors)

/-- The `abc_domains` formula of `ShurProblem.__init__`:
each of `a`, `b`, `c` lies in `[1, total_numbers]`. -/
def abc_domains (total_numbers a b c : Int) : Prop :=
  (1 ≤ a ∧ a ≤ total_numbers) ∧ (1 ≤ b ∧ b ≤ total_numbers) ∧ (1 ≤ c ∧ c ≤ total_numbers)

/-- The `shur_rule` formula of `ShurProblem.__init__`: `a + b = c`. -/
def shur_rule (a b c : Int) : Prop := a + b = c

/-- The complete assertion set submitted by `assign_colors`: well-formedness
plus `ForAll [a, b, c], (abc_domains ∧ shur_rule) → (A[a-1] ≠ A[b-1] ∨ A[b-1] ≠ A[c-1])`.
A model of this proposition is exactly a satisfying model of the query. -/
def assign_colors_assertions (total_colors total_numbers : Int) (coloring : Int → Int) : Prop :=
  wellformedness total_colors total_numbers coloring ∧
    ∀ a b c : Int, (abc_domains total_numbers a b c ∧ shur_rule a b c) →
      (coloring (a - 1) ≠ coloring (b - 1) ∨ coloring (b - 1) ≠ coloring (c - 1))

/-- The pinning constraints added by `check_solution`: for every list index `i`
of the caller-supplied candidate, `A[i] == candidate[i]`. -/
def check_solution_pins (candidate : List Int) (coloring : Int → Int) : Prop :=
  ∀ i : Nat, i < candidate.length → coloring (i : Int) = candidate.getD i 0

/-- The complete assertion set submitted by `check_solution`, as a property of
a candidate model `(coloring, a, b, c)`: well-formedness, the pins, and
`abc_domains ∧ shur_rule ∧ A[a-1] = A[b-1] ∧ A[b-1] = A[c-1]`. -/
def check_solution_assertions (total_colors total_numbers : Int) (candidate : List Int)
    (coloring : Int → Int) (a b c : Int) : Prop :=
  wellformedness total_colors total_numbers coloring ∧
    check_solution_pins candidate coloring ∧
    abc_domains total_numbers a b c ∧ shur_rule a b c ∧
    coloring (a - 1) = coloring (b - 1) ∧ coloring (b - 1) = coloring (c - 1)

/-- An outcome of `solver.check()` for the `assign_colors` query: satisfiable
with a model of the coloring array, unsatisfiable, or unknown. -/
inductive SolverOutcome where
  | sat (model : Int → Int)
  | unsat
  | unknown

/-- Value returned by `assign_colors` from a solver outcome: on `sat` it
evaluates `A[0], …, A[total_numbers-1]` in the model; in every other case
(`unsat` and `unknown` alike hit the `else` branch) it returns `[]`. -/
def assign_colors_return (total_numbers : Int) (result : SolverOutcome) : List Int :=
  match result with
  | .sat model => (List.range total_numbers.toNat).map fun i : Nat => model (i : Int)
  | .unsat => []
  | .unknown => []

/-- An outcome of `solver.check()` for the `check_solution` query: satisfiable
with a model of the coloring array and of `a`, `b`, `c`, unsatisfiable, or
unknown. -/
inductive CheckOutcome where
  | sat (model : Int → Int) (a b c : Int)
  | unsat
  | unknown

/-- Boolean returned by `check_solution`: `False` exactly when the solver
answered `sat`; both `unsat` and `unknown` fall through to `return True`. -/
def check_solution_return (result : CheckOutcome) : Bool :=
  match result with
  | .sat _ _ _ _ => false
  | .unsat => true
  | .unknown => true

/-- The counterexample triple printed by `check_solution`, when any: the model
values of `a`, `b`, `c` on `sat`, and nothing otherwise. -/
def check_solution_counterexample (result : CheckOutcome) : Option (Int × Int × Int) :=
  match result with
  | .sat _ a b c => some (a, b, c)
  | _ => none

/-- Soundness of a `check_solution` solver outcome for a given query: a `sat`
answer comes with a model of the submitted assertion set.  (`unsat` and
`unknown` carry no model.) -/
def CheckOutcomeSound (total_colors total_numbers : Int) (candidate : List Int) :
    CheckOutcome → Prop
  | .sat model a b c =>
      check_solution_assertions total_colors total_numbers candidate model a b c
  | .unsat => True
  | .unknown => True

/-- State of `main`'s iterate loop: the `total_colors` and `total_numbers`
counters plus the sequence of `S(C) = N` records printed so far. -/
structure SearchState where
  total_colors : Int
  total_numbers : Int
  recorded : List (Int × Int)
deriving DecidableEq

/-- One iteration of the body of `main`'s iterate loop, parameterized by the
list that `assign_colors` returned: if the list is empty (`if not
assigned_colors`) record `S(total_colors) = total_numbers` and increment
`total_colors`; in both cases increment `total_numbers`. -/
def mainIterStep (s : SearchState) (assigned_colors : List Int) : SearchState :=
  if assigned_colors.isEmpty then
    { total_colors := s.total_colors + 1
      total_numbers := s.total_numbers + 1
      recorded := s.recorded ++ [(s.total_colors, s.total_numbers)] }
  else
    { s with total_numbers := s.total_numbers + 1 }

/-! ## Helper lemmas -/

/-- Unfolding of `assign_colors_return` on a `sat` outcome. -/
theorem assign_colors_return_sat (total_numbers : Int) (model : Int → Int) :
    assign_colors_return total_numbers (SolverOutcome.sat model) =
      (List.range total_numbers.toNat).map fun i : Nat => model (i : Int) := rfl

/-- Length of the list `assign_colors` extracts from a model. -/
theorem assign_colors_return_sat_length (total_numbers : Int) (model : Int → Int) :
    (assign_colors_return total_numbers (SolverOutcome.sat model)).length =
      total_numbers.toNat := by
  rw [assign_colors_return_sat, List.length_map, List.length_range]

/-- Reading a mapped range list at an in-range index gives the function value. -/
theorem getD_map_range (f : Nat → Int) (n i : Nat) (h : i < n) :
    ((List.range n).map f).getD i 0 = f i := by
  rw [List.getD_eq_getElem _ _ (by simpa using h)]
  simp

/-- The pins determine the model array on every index covered by the candidate. -/
theorem pins_determine (candidate : List Int) (B : Int → Int)
    (hpins : check_solution_pins candidate B) (x : Int)
    (h1 : 0 ≤ x) (h2 : x < (candidate.length : Int)) :
    B x = candidate.getD x.toNat 0 := by
  have hx : x.toNat < candidate.length := by omega
  have hp := hpins x.toNat hx
  rwa [Int.toNat_of_nonneg h1] at hp

/-- The constant-1 coloring is a model of the `assign_colors` query at
`(total_colors, total_numbers) = (1, 1)`: no Schur triple fits in `[1, 1]`. -/
theorem assign_model_one_one : assign_colors_assertions 1 1 (fun _ => 1) := by
  refine ⟨fun i _ => ⟨le_refl 1, le_refl 1⟩, fun a b c h => absurd h ?_⟩
  simp only [abc_domains, shur_rule, not_and]
  intro hdom hrule
  omega

/-- The `assign_colors` query at `(1, 2)` is unsatisfiable: one color, and the
triple `(1, 1, 2)` forces `A[0] = A[1]`. -/
theorem assign_unsat_one_two : ¬ ∃ A, assign_colors_assertions 1 2 A := by
  rintro ⟨A, hA⟩
  simp only [assign_colors_assertions, wellformedness, abc_domains, shur_rule] at hA
  obtain ⟨hwf, hforall⟩ := hA
  have h0 := hwf 0 ⟨le_refl 0, by norm_num⟩
  have h1 := hwf 1 ⟨by norm_num, by norm_num⟩
  have hd := hforall 1 1 2
    ⟨⟨⟨le_refl 1, by norm_num⟩, ⟨le_refl 1, by norm_num⟩, by norm_num, le_refl 2⟩, by norm_num⟩
  norm_num at hd
  omega

/-! ## Claim theorems -/

/-- Claim C1: for every `total_colors ≥ 1` and `total_numbers ≥ 1`, a coloring
returned by `assign_colors` from a satisfying model has exactly
`total_numbers` entries, each in `[1, total_colors]`. -/
theorem C1_assign_colors_wellformed (total_colors total_numbers : Int) (model : Int → Int)
    (hC : 1 ≤ total_colors) (hN : 1 ≤ total_numbers)
    (hmodel : assign_colors_assertions total_colors total_numbers model) :
    ((assign_colors_return total_numbers (SolverOutcome.sat model)).length : Int) =
        total_numbers ∧
      ∀ x ∈ assign_colors_return total_numbers (SolverOutcome.sat model),
        1 ≤ x ∧ x ≤ total_colors := by
  constructor
  · rw [assign_colors_return_sat_length]
    omega
  · intro x hx
    rw [assign_colors_return_sat] at hx
    simp only [List.mem_map, List.mem_range] at hx
    obtain ⟨i, hi, rfl⟩ := hx
    exact hmodel.1 (i : Int) ⟨Int.natCast_nonneg i, by omega⟩

/-- Witness for C1 at `(total_colors, total_numbers) = (1, 1)` with the
constant-1 model. -/
theorem C1_witness :
    (1 : Int) ≤ 1 ∧ assign_colors_assertions 1 1 (fun _ => 1) ∧
      (((assign_colors_return 1 (SolverOutcome.sat (fun _ => 1))).length : Int) = 1 ∧
        ∀ x ∈ assign_colors_return 1 (SolverOutcome.sat (fun _ => 1)), 1 ≤ x ∧ x ≤ 1) :=
  ⟨le_refl 1, assign_model_one_one,
    C1_assign_colors_wellformed 1 1 (fun _ => 1) (le_refl 1) (le_refl 1) assign_model_one_one⟩

/-- Claim C2: running `check_solution` on the very coloring that
`assign_colors` extracted from a satisfying model returns `True` and reports
no counterexample, for any sound solver outcome of the verification query. -/
theorem C2_roundtrip (total_colors total_numbers : Int) (model : Int → Int)
    (hmodel : assign_colors_assertions total_colors total_numbers model)
    (result : CheckOutcome)
    (hsound : CheckOutcomeSound total_colors total_numbers
      (assign_colors_return total_numbers (SolverOutcome.sat model)) result) :
    check_solution_return result = true ∧ check_solution_counterexample result = none := by
  cases result with
  | unsat => exact ⟨rfl, rfl⟩
  | unknown => exact ⟨rfl, rfl⟩
  | sat B a b c =>
    exfalso
    obtain ⟨hwf, hpins, hdom, hrule, hm1, hm2⟩ := hsound
    obtain ⟨⟨ha1, ha2⟩, ⟨hb1, hb2⟩, hc1, hc2⟩ := hdom
    have hN1 : 1 ≤ total_numbers := by omega
    have hlen : ((assign_colors_return total_numbers (SolverOutcome.sat model)).length : Int) =
        total_numbers := by
      rw [assign_colors_return_sat_length]
      omega
    have key : ∀ x : Int, 1 ≤ x → x ≤ total_numbers → B (x - 1) = model (x - 1) := by
      intro x hx1 hx2
      have hB := pins_determine _ B hpins (x - 1) (by omega) (by omega)
      rw [hB, assign_colors_return_sat,
        getD_map_range _ _ _ (by omega), Int.toNat_of_nonneg (by omega)]
    rw [key a ha1 ha2, key b hb1 hb2] at hm1
    rw [key b hb1 hb2, key c hc1 hc2] at hm2
    have hda := hmodel.2 a b c ⟨⟨⟨ha1, ha2⟩, ⟨hb1, hb2⟩, hc1, hc2⟩, hrule⟩
    rcases hda with h | h
    · exact h hm1
    · exact h hm2

/-- Witness for C2 at `(1, 1)` with the constant-1 model and an `unsat`
verification outcome. -/
theorem C2_witness :
    assign_colors_assertions 1 1 (fun _ => 1) ∧
      CheckOutcomeSound 1 1 (assign_colors_return 1 (SolverOutcome.sat (fun _ => 1)))
        CheckOutcome.unsat ∧
      (check_solution_return CheckOutcome.unsat = true ∧
        check_solution_counterexample CheckOutcome.unsat = none) :=
  ⟨assign_model_one_one, True.intro,
    C2_roundtrip 1 1 (fun _ => 1) assign_model_one_one CheckOutcome.unsat True.intro⟩

/-- Claim C3: a counterexample triple `(a, b, c)` reported by `check_solution`
from a satisfying model — with the candidate of the documented length
`total_numbers` — satisfies `a + b = c`, has all components in
`[1, total_numbers]`, and is monochromatic under the candidate coloring. -/
theorem C3_counterexample_sound (total_colors total_numbers : Int) (candidate : List Int)
    (B : Int → Int) (a b c : Int)
    (hlen : (candidate.length : Int) = total_numbers)
    (hsat : check_solution_assertions total_colors total_numbers candidate B a b c) :
    a + b = c ∧
      (1 ≤ a ∧ a ≤ total_numbers) ∧ (1 ≤ b ∧ b ≤ total_numbers) ∧
        (1 ≤ c ∧ c ≤ total_numbers) ∧
      candidate.getD (a - 1).toNat 0 = candidate.getD (b - 1).toNat 0 ∧
      candidate.getD (b - 1).toNat 0 = candidate.getD (c - 1).toNat 0 := by
  obtain ⟨hwf, hpins, hdom, hrule, hm1, hm2⟩ := hsat
  obtain ⟨⟨ha1, ha2⟩, ⟨hb1, hb2⟩, hc1, hc2⟩ := hdom
  have key : ∀ x : Int, 1 ≤ x → x ≤ total_numbers →
      B (x - 1) = candidate.getD (x - 1).toNat 0 := by
    intro x hx1 hx2
    exact pins_determine _ B hpins (x - 1) (by omega) (by omega)
  refine ⟨hrule, ⟨ha1, ha2⟩, ⟨hb1, hb2⟩, ⟨hc1, hc2⟩, ?_, ?_⟩
  · rw [← key a ha1 ha2, ← key b hb1 hb2]; exact hm1
  · rw [← key b hb1 hb2, ← key c hc1 hc2]; exact hm2

/-- Witness for C3 at `(1, 2)` with candidate `[1, 1]`, the constant-1 model,
and the triple `(1, 1, 2)`. -/
theorem C3_witness :
    (([1, 1] : List Int).length : Int) = 2 ∧
      check_solution_assertions 1 2 [1, 1] (fun _ => 1) 1 1 2 ∧
      ((1 : Int) + 1 = 2 ∧
        ((1 : Int) ≤ 1 ∧ (1 : Int) ≤ 2) ∧ ((1 : Int) ≤ 1 ∧ (1 : Int) ≤ 2) ∧
          ((1 : Int) ≤ 2 ∧ (2 : Int) ≤ 2) ∧
        ([1, 1] : List Int).getD ((1 : Int) - 1).toNat 0 =
          ([1, 1] : List Int).getD ((1 : Int) - 1).toNat 0 ∧
        ([1, 1] : List Int).getD ((1 : Int) - 1).toNat 0 =
          ([1, 1] : List Int).getD ((2 : Int) - 1).toNat 0) := by
  have hsat : check_solution_assertions 1 2 [1, 1] (fun _ => 1) 1 1 2 := by
    refine ⟨fun i _ => ⟨le_refl 1, le_refl 1⟩, ?_, ?_, show (1 : Int) + 1 = 2 by norm_num,
      rfl, rfl⟩
    · intro i hi
      simp only [List.length_cons, List.length_nil] at hi
      interval_cases i <;> rfl
    · exact ⟨⟨le_refl 1, by norm_num⟩, ⟨le_refl 1, by norm_num⟩, by norm_num, le_refl 2⟩
  exact ⟨by norm_num, hsat, C3_counterexample_sound 1 2 [1, 1] (fun _ => 1) 1 1 2 (by norm_num) hsat⟩

/-- Monotonicity of the `assign_colors` assertion set in `total_numbers`: a
model for a larger universe is a model for a smaller one. -/
theorem assign_assertions_mono (total_colors N N' : Int) (h : N ≤ N') (A : Int → Int)
    (hA : assign_colors_assertions total_colors N' A) :
    assign_colors_assertions total_colors N A := by
  obtain ⟨hwf, hforall⟩ := hA
  constructor
  · intro i hi
    exact hwf i ⟨hi.1, by omega⟩
  · intro a b c hq
    obtain ⟨⟨⟨ha1, ha2⟩, ⟨hb1, hb2⟩, hc1, hc2⟩, hrule⟩ := hq
    exact hforall a b c
      ⟨⟨⟨ha1, by omega⟩, ⟨hb1, by omega⟩, hc1, by omega⟩, hrule⟩

/-- Claim C4: if the `assign_colors` query is unsatisfiable at
`(total_colors, N)`, then it is unsatisfiable at `(total_colors, N')` for
every `N' > N`. -/
theorem C4_unsat_monotone (total_colors N N' : Int) (hNN : N < N')
    (hunsat : ¬ ∃ A, assign_colors_assertions total_colors N A) :
    ¬ ∃ A, assign_colors_assertions total_colors N' A := by
  rintro ⟨A, hA⟩
  exact hunsat ⟨A, assign_assertions_mono total_colors N N' (le_of_lt hNN) A hA⟩

/-- Witness for C4 at `total_colors = 1`, `N = 2`, `N' = 3`. -/
theorem C4_witness :
    (2 : Int) < 3 ∧ (¬ ∃ A, assign_colors_assertions 1 2 A) ∧
      ¬ ∃ A, assign_colors_assertions 1 3 A :=
  ⟨by norm_num, assign_unsat_one_two,
    C4_unsat_monotone 1 2 3 (by norm_num) assign_unsat_one_two⟩

/-- Claim C5: one iteration of the iterate loop advances `(C, N)` to
`(C, N + 1)` and records nothing when `assign_colors` returned a coloring;
when it returned `[]`, it records `S(C) = N` for the current `N`, advances
`C` to `C + 1`, and `N` is not reset — it too advances to `N + 1`. -/
theorem C5_driver_step (s : SearchState) (assigned_colors : List Int) :
    (assigned_colors ≠ [] →
      mainIterStep s assigned_colors =
        { s with total_numbers := s.total_numbers + 1 }) ∧
    (assigned_colors = [] →
      mainIterStep s assigned_colors =
        { total_colors := s.total_colors + 1
          total_numbers := s.total_numbers + 1
          recorded := s.recorded ++ [(s.total_colors, s.total_numbers)] }) := by
  constructor
  · intro h
    cases assigned_colors with
    | nil => exact absurd rfl h
    | cons x xs => rfl
  · intro h
    subst h
    rfl

/-- Witness for C5: a success step from `(1, 1)` and a failure step from
`(1, 2)`. -/
theorem C5_witness :
    mainIterStep ⟨1, 1, []⟩ [1] = ⟨1, 1 + 1, []⟩ ∧
      mainIterStep ⟨1, 2, []⟩ [] = ⟨1 + 1, 2 + 1, [] ++ [(1, 2)]⟩ :=
  ⟨(C5_driver_step ⟨1, 1, []⟩ [1]).1 (by simp),
    (C5_driver_step ⟨1, 2, []⟩ []).2 rfl⟩

/-- Claim C6 counterexample: an `unknown` solver outcome is not propagated as
a distinct result.  `assign_colors` returns `[]` for it — the very value that
encodes "no valid coloring" — and the driver then advances the cursor from
`(1, 1)` to `(2, 2)` and even records `S(1) = 1`. -/
theorem C6_cex :
    assign_colors_return 1 SolverOutcome.unknown = [] ∧
      assign_colors_return 1 SolverOutcome.unknown =
        assign_colors_return 1 SolverOutcome.unsat ∧
      mainIterStep ⟨1, 1, []⟩ (assign_colors_return 1 SolverOutcome.unknown) =
        ⟨1 + 1, 1 + 1, [] ++ [(1, 1)]⟩ :=
  ⟨rfl, rfl, rfl⟩

/-- Claim C6 (amended): `assign_colors` maps an `unknown` outcome to `[]`,
exactly as it maps `unsat`, and the driver treats that `[]` as a failure,
recording `S(total_colors) = total_numbers` and advancing both counters. -/
theorem C6_unknown_conflated (total_numbers : Int) (s : SearchState) :
    assign_colors_return total_numbers SolverOutcome.unknown = [] ∧
      assign_colors_return total_numbers SolverOutcome.unknown =
        assign_colors_return total_numbers SolverOutcome.unsat ∧
      mainIterStep s (assign_colors_return total_numbers SolverOutcome.unknown) =
        { total_colors := s.total_colors + 1
          total_numbers := s.total_numbers + 1
          recorded := s.recorded ++ [(s.total_colors, s.total_numbers)] } :=
  ⟨rfl, rfl, rfl⟩

/-- Claim C7 counterexample: `assign_colors` performs no input validation.
The malformed instance `(total_colors, total_numbers) = (0, 1)` reaches the
solver as an unsatisfiable query, and the `[]` it yields is the same value as
the `[]` yielded for the well-formed but genuinely colorless instance
`(1, 2)`: the two outcomes are indistinguishable to a caller. -/
theorem C7_cex :
    (¬ ∃ A, assign_colors_assertions 0 1 A) ∧
      (¬ ∃ A, assign_colors_assertions 1 2 A) ∧
      assign_colors_return 1 SolverOutcome.unsat =
        assign_colors_return 2 SolverOutcome.unsat := by
  refine ⟨?_, assign_unsat_one_two, rfl⟩
  rintro ⟨A, hA⟩
  obtain ⟨hwf, -⟩ := hA
  have h0 := hwf 0 ⟨le_refl 0, by norm_num⟩
  omega

/-- Claim C7 (amended): `assign_colors` does not validate its inputs; every
instance with `total_colors ≤ 0` and `total_numbers ≥ 1` is submitted to the
solver, is unsatisfiable there, and is therefore answered with `[]` — the
same encoding used for the "no valid coloring exists" outcome. -/
theorem C7_no_validation (total_colors total_numbers : Int)
    (hC : total_colors ≤ 0) (hN : 1 ≤ total_numbers) :
    (¬ ∃ A, assign_colors_assertions total_colors total_numbers A) ∧
      assign_colors_return total_numbers SolverOutcome.unsat = ([] : List Int) := by
  refine ⟨?_, rfl⟩
  rintro ⟨A, hA⟩
  obtain ⟨hwf, -⟩ := hA
  have h0 := hwf 0 ⟨le_refl 0, by omega⟩
  omega

/-- Witness for C7 (amended) at `(0, 1)`. -/
theorem C7_witness :
    (0 : Int) ≤ 0 ∧ (1 : Int) ≤ 1 ∧
      ((¬ ∃ A, assign_colors_assertions 0 1 A) ∧
        assign_colors_return 1 SolverOutcome.unsat = ([] : List Int)) :=
  ⟨le_refl 0, le_refl 1, C7_no_validation 0 1 (le_refl 0) (le_refl 1)⟩

/-- A candidate entry outside `[1, total_colors]` at an index below
`total_numbers` makes the pinned `check_solution` query unsatisfiable. -/
theorem check_unsat_of_out_of_range (total_colors total_numbers : Int)
    (candidate : List Int) (i : Nat) (hi : i < candidate.length)
    (hiN : (i : Int) < total_numbers)
    (hbad : candidate.getD i 0 < 1 ∨ total_colors < candidate.getD i 0) :
    ¬ ∃ B a b c, check_solution_assertions total_colors total_numbers candidate B a b c := by
  rintro ⟨B, a, b, c, hwf, hpins, -⟩
  have hp := hpins i hi
  have hw := hwf (i : Int) ⟨Int.natCast_nonneg i, hiN⟩
  rw [hp] at hw
  omega

/-- Claim C8 counterexample: `check_solution` does not validate the candidate.
The out-of-range candidate `[5, 5]` for `(total_colors, total_numbers) =
(2, 2)` makes the query unsatisfiable, and the `unsat` branch silently
returns `True` with no counterexample — the coloring is reported valid. -/
theorem C8_cex :
    (¬ ∃ B a b c, check_solution_assertions 2 2 [5, 5] B a b c) ∧
      check_solution_return CheckOutcome.unsat = true ∧
      check_solution_counterexample CheckOutcome.unsat = none :=
  ⟨check_unsat_of_out_of_range 2 2 [5, 5] 0 (by norm_num) (by norm_num)
      (Or.inr (by decide)),
    rfl, rfl⟩

/-- Claim C8 (amended): `check_solution` performs no candidate validation;
whenever the candidate holds a value outside `[1, total_colors]` at an index
below `total_numbers`, the pinned query is unsatisfiable and the function
silently reports the coloring valid (`True`, no counterexample). -/
theorem C8_malformed_reported_valid (total_colors total_numbers : Int)
    (candidate : List Int) (i : Nat) (hi : i < candidate.length)
    (hiN : (i : Int) < total_numbers)
    (hbad : candidate.getD i 0 < 1 ∨ total_colors < candidate.getD i 0) :
    (¬ ∃ B a b c, check_solution_assertions total_colors total_numbers candidate B a b c) ∧
      check_solution_return CheckOutcome.unsat = true ∧
      check_solution_counterexample CheckOutcome.unsat = none :=
  ⟨check_unsat_of_out_of_range total_colors total_numbers candidate i hi hiN hbad, rfl, rfl⟩

/-- Witness for C8 (amended) at `(2, 2)` with candidate `[5, 5]`, index 0. -/
theorem C8_witness :
    0 < ([5, 5] : List Int).length ∧ ((0 : Nat) : Int) < 2 ∧
      (([5, 5] : List Int).getD 0 0 < 1 ∨ (2 : Int) < ([5, 5] : List Int).getD 0 0) ∧
      ((¬ ∃ B a b c, check_solution_assertions 2 2 [5, 5] B a b c) ∧
        check_solution_return CheckOutcome.unsat = true ∧
        check_solution_counterexample CheckOutcome.unsat = none) :=
  ⟨by norm_num, by norm_num, Or.inr (by decide),
    C8_malformed_reported_valid 2 2 [5, 5] 0 (by norm_num) (by norm_num)
      (Or.inr (by decide))⟩

/-- Claim C9: the `assign_colors` query at `(1, 1)` is satisfiable, no Schur
triple exists within `[1, 1]`, and every satisfying model yields the returned
coloring `[1]`. -/
theorem C9_one_one :
    (∃ A, assign_colors_assertions 1 1 A) ∧
      (∀ a b c : Int, ¬ (abc_domains 1 a b c ∧ shur_rule a b c)) ∧
      ∀ A, assign_colors_assertions 1 1 A →
        assign_colors_return 1 (SolverOutcome.sat A) = [1] := by
  refine ⟨⟨fun _ => 1, assign_model_one_one⟩, ?_, ?_⟩
  · intro a b c h
    simp only [abc_domains, shur_rule] at h
    omega
  · intro A hA
    have h0 := hA.1 0 ⟨le_refl 0, by norm_num⟩
    have hA0 : A 0 = 1 := by omega
    rw [assign_colors_return_sat]
    have hr : List.range (1 : Int).toNat = [0] := rfl
    rw [hr, List.map_cons, List.map_nil, Nat.cast_zero, hA0]

/-- Witness for C9: the constant-1 model at `(1, 1)` extracts to `[1]`. -/
theorem C9_witness :
    assign_colors_assertions 1 1 (fun _ => 1) ∧
      assign_colors_return 1 (SolverOutcome.sat (fun _ => 1)) = [1] :=
  ⟨assign_model_one_one, C9_one_one.2.2 (fun _ => 1) assign_model_one_one⟩

/-- Claim C10: for every `total_colors ≥ 1`, the `assign_colors` query at
`total_numbers = 0` is satisfiable, yet extraction from any model yields `[]`
— the same value returned for an unsatisfiable query — so at the interface
the satisfiable `N = 0` result is indistinguishable from "no valid coloring
exists". -/
theorem C10_n_zero (total_colors : Int) (hC : 1 ≤ total_colors) :
    (∃ A, assign_colors_assertions total_colors 0 A) ∧
      (∀ A : Int → Int, assign_colors_return 0 (SolverOutcome.sat A) = []) ∧
      assign_colors_return 0 SolverOutcome.unsat = ([] : List Int) := by
  refine ⟨⟨fun _ => 1, ?_, ?_⟩, fun A => rfl, rfl⟩
  · intro i hi
    exact absurd hi (by omega)
  · intro a b c h
    simp only [abc_domains, shur_rule] at h
    omega

/-- Witness for C10 at `total_colors = 1`. -/
theorem C10_witness :
    (1 : Int) ≤ 1 ∧
      ((∃ A, assign_colors_assertions 1 0 A) ∧
        (∀ A : Int → Int, assign_colors_return 0 (SolverOutcome.sat A) = []) ∧
        assign_colors_return 0 SolverOutcome.unsat = ([] : List Int)) :=
  ⟨le_refl 1, C10_n_zero 1 (le_refl 1)⟩
